import Mathlib

/-!
Verification development for the calendar-traversal core of a browser-driven
court-reservation scanner.  The Python source under `backend/app` is shallowly
embedded: every page interaction is modelled as a pure function over an
explicit page/environment record, exceptions become explicit branches, and
regex-parsed onclick handlers become a small inductive of recognised shapes.
Ghost fields (click counts, attempted/verified markers, traces) are added to
the results so that observational claims about the driver's behaviour can be
stated; the observable outputs (slot lists, flags, clicked-id lists) are
computed exactly as the source computes them.
-/

namespace BookModel

/-! ## String helpers (character-level, so everything reduces in the kernel) -/

/-- Numeric value of a list of decimal digit characters (no sign handling,
mirroring `int()` on the digit-only strings this code feeds it). -/
def digitsVal : List Char → Nat → Nat
  | [], acc => acc
  | c :: cs, acc => digitsVal cs (acc * 10 + (c.toNat - 48))

/-- Parse a character list as a natural number the way Python's `int()`
accepts the date components seen here: nonempty, all decimal digits.
`none` models `int()` raising `ValueError`. -/
def parseNatChars (l : List Char) : Option Nat :=
  if l = [] then none
  else if l.all Char.isDigit then some (digitsVal l 0) else none

/-- Does `pat` occur as a leading segment of `l`? -/
def leadMatch : List Char → List Char → Bool
  | [], _ => true
  | _ :: _, [] => false
  | p :: ps, c :: cs => p = c && leadMatch ps cs

/-- Does `pat` occur anywhere inside `l` (Python's `in` on strings)? -/
def occursIn (pat : List Char) : List Char → Bool
  | [] => leadMatch pat []
  | c :: cs => leadMatch pat (c :: cs) || occursIn pat cs

/-- Python's `pat in s` for strings. -/
def strHas (s pat : String) : Bool :=
  occursIn pat.data s.data

/-- Lower-case a string character-wise (Python `str.lower()` on the ASCII
markers this code compares). -/
def lowerStr (s : String) : String :=
  String.mk (s.data.map Char.toLower)

/-- Split a cell id `{YYYYMMDD}_{time_slot}` at the first underscore and
parse the date part, mirroring `cell_id.split('_', 1)` followed by
`int(date_str)`; `none` covers ids without `'_'` and non-numeric date parts
(both of which make the source skip the cell). -/
def splitCellId (s : String) : Option (Nat × String) :=
  if s.data.contains '_' then
    match parseNatChars (s.data.takeWhile (fun c => c != '_')) with
    | some d => some (d, String.mk ((s.data.dropWhile (fun c => c != '_')).drop 1))
    | none => none
  else none

/-! ## Calendar navigator (`calendar_navigator.py`)

`is_on_week_one` reads the currently rendered week table.  We model the
table as `Option (List String)`: `none` when `table#week-info` cannot be
found (the `wait_for_selector` at the top times out), `some ids` for the
list of `td[id]` id attributes otherwise. -/

/-- Date component of a rendered cell id as `is_on_week_one` reads it:
the part before the first `'_'`, parsed as an integer; `none` when the id
has no underscore or a non-numeric date part (the source `continue`s). -/
def cellDateVal (s : String) : Option Nat :=
  if s.data.contains '_' then parseNatChars (s.data.takeWhile (fun c => c != '_'))
  else none

/-- Embedding of `CalendarNavigator.is_on_week_one`.  `today` is
`int(datetime.now().strftime('%Y%m%d'))`; `table` is the rendered week
table (`none` = not found).  The source returns `False` when the table is
missing or no cell-id date component equals today, `True` otherwise; every
internal failure path also returns `False`, so the embedding is total. -/
def is_on_week_one (today : Nat) (table : Option (List String)) : Bool :=
  match table with
  | none => false
  | some ids => ids.any (fun s => cellDateVal s == some today)

/-- Environment of one `navigate_back_to_week_one` run.  The page state
changes only when the previous-week control is clicked, so the environment
is indexed by the number of clicks issued so far. -/
structure NavState where
  onWeekOne : Bool
  buttonMissing : Bool
  buttonDisabled : Bool
  deriving DecidableEq

/-- Loop body of `navigate_back_to_week_one` (`for click_num in
range(max_backward_clicks)` with the final check after the loop).  `env k`
is the page state after `k` clicks; the result carries the Boolean the
source returns plus (ghost) the number of clicks issued.  On a missing or
disabled control the source re-runs `is_on_week_one` and returns that
answer directly; after a click it re-checks and returns `True` as soon as
week 1 is confirmed. -/
def navBackLoop (env : Nat → NavState) : Nat → Nat → Bool × Nat
  | 0, clicks => ((env clicks).onWeekOne, clicks)
  | fuel + 1, clicks =>
    if (env clicks).onWeekOne then (true, clicks)
    else if (env clicks).buttonMissing || (env clicks).buttonDisabled then
      ((env clicks).onWeekOne, clicks)
    else
      if (env (clicks + 1)).onWeekOne then (true, clicks + 1)
      else navBackLoop env fuel (clicks + 1)

/-- Embedding of `CalendarNavigator.navigate_back_to_week_one`:
`max_backward_clicks = 6`, starting with zero clicks issued. -/
def navigate_back_to_week_one (env : Nat → NavState) : Bool × Nat :=
  navBackLoop env 6 0

/-! ## Slot extractor (`slot_extractor.py`)

The page is modelled per available cell.  A cell records what the source
reads from it (id attribute, whether the `calendar_available_outline.svg`
icon is currently inside it — icon present means NOT selected — and its
`onclick` handler) together with the behaviour of the environment when the
driver interacts with it (which Playwright calls raise, whether the site
registers a click by toggling the icon, and what the comprehensive
`CellSelectionVerifier` answers).  The `onclick` attribute is abstracted
into the shapes the source's regex distinguishes: a parseable
`setReserv(...)` call, a string containing `setReserv` that the regex does
not match, and anything else. -/

inductive OnClick where
  /-- `setReserv(arg1, "bcd", "icd", n3, n4, n5, n6, ...)` — the regex
  captures `bcd`, `icd` and the four following bare integers; the source
  uses capture 4 as `start_time` and capture 5 as `end_time`. -/
  | setReserv (arg1 bcd icd : String) (n3 n4 n5 n6 : Nat)
  /-- contains the substring `setReserv` but the parameter regex fails -/
  | setReservMalformed
  /-- no `setReserv` substring at all -/
  | other
  deriving DecidableEq

structure Cell where
  /-- `id` attribute (`none` = attribute absent, source skips the cell) -/
  id : Option String
  /-- `calendar_available_outline.svg` is currently inside the cell;
  its presence means the slot is NOT selected -/
  outline : Bool
  /-- `onclick` attribute (`none` = absent) -/
  onclick : Option OnClick
  /-- `scroll_into_view_if_needed` (or the error-tracking setup) raises -/
  scrollRaises : Bool
  /-- `cell.click()` raises before the click lands -/
  clickRaises : Bool
  /-- the JavaScript `el.click()` evaluation raises -/
  jsClickRaises : Bool
  /-- direct invocation of the onclick body raises -/
  onclickRaises : Bool
  /-- the site registers a landed click by toggling the icon -/
  clickEffective : Bool
  /-- answer of `CellSelectionVerifier.verify_cell_selection` for this cell
  (the verifier itself is embedded separately; here it is environment) -/
  verifierOk : Bool
  deriving DecidableEq

/-- Slot dictionary as built at `slot_extractor.py:420`.  The derived
display strings and the constant fields (`pps_cd`, `pps_cls_cd`,
`field_cnt`, `week_flg`, `holiday_flg`) are omitted: they are literals or
pure functions of `start_time`/`end_time`. -/
structure Slot where
  use_ymd : Nat
  bcd : String
  icd : String
  bcd_name : String
  icd_name : String
  start_time : Nat
  end_time : Nat
  cell_id : String
  time_slot : String
  deriving DecidableEq

/-- Optional `slot_exists_checker` callback given to `SlotExtractor`
(`none` is the constructor default). -/
def Checker := Option (Nat → String → String → Nat → Bool)

/-- `none` as a `Checker` (the `SlotExtractor()` default). -/
def noChecker : Checker := none

def checkerSkips (chk : Checker) (useYmd : Nat) (bcd icd : String) (startT : Nat) : Bool :=
  match chk with
  | none => false
  | some f => f useYmd bcd icd startT

/-- Icon state after a landed click: the site toggles it when it registers
the click. -/
def toggleIf (eff outline : Bool) : Bool := if eff then !outline else outline

/-- Result of the PHASE-2 repair block (`slot_extractor.py:137-185`),
entered only for a cell whose id is in `previously_clicked_ids` and whose
icon check says "not selected".  Fields: icon state afterwards, the
`is_already_selected` flag afterwards, ids appended to `clicked_cell_ids`,
the flag contribution, (ghost) clicks issued and whether the re-click's
verification succeeded.  The page is modelled as a consistent snapshot
that changes only at clicks, so the source's repeated by-id re-queries
(double-check :145, final check :159, verification :169) find the cell
and read the icon state current at that moment. -/
structure RepairOut where
  outline : Bool
  alreadySel : Bool
  recorded : List String
  flag : Bool
  clicks : Nat
  verifiedSel : Bool
  deriving DecidableEq

def phase2Repair (c : Cell) (cid : String) : RepairOut :=
  if !c.outline then
    -- double-check finds the icon gone: is_already_selected := True; the
    -- final pre-click check inside the try reconfirms, so no click
    ⟨c.outline, true, [], false, 0, false⟩
  else if c.scrollRaises then
    -- scroll raises inside the try; caught at :184, nothing recorded
    ⟨c.outline, false, [], false, 0, false⟩
  else if c.clickRaises then
    -- the re-click itself raises; caught at :184
    ⟨c.outline, false, [], false, 1, false⟩
  else
    let outline' := toggleIf c.clickEffective c.outline
    if !outline' then
      -- icon gone after the click: restoration verified (:169-177)
      ⟨outline', true, [cid], true, 1, true⟩
    else
      -- icon still present: warning only, nothing recorded (:179)
      ⟨outline', false, [], false, 1, false⟩

/-- Result of the PHASE-1 click block (`slot_extractor.py:252-413`).
Fields: icon state afterwards, flag contribution, ids appended to
`clicked_cell_ids`, (ghost) clicks issued, the source's `click_attempted`,
whether any verification (comprehensive or SVG) succeeded, and whether the
outer `except` path was taken.  The SVG verification's by-id re-query
(:362) is modelled as finding the cell (consistent page snapshot); a click
that raises is counted in `clicks` but leaves the icon unchanged. -/
structure ClickOut where
  outline : Bool
  flag : Bool
  recorded : List String
  clicks : Nat
  attempted : Bool
  verifiedSel : Bool
  errored : Bool
  deriving DecidableEq

def phase1Click (c : Cell) (cid : String) (outline0 : Bool) : ClickOut :=
  if c.scrollRaises then
    -- outer `except Exception` at :401: flag set and id recorded anyway
    ⟨outline0, true, [cid], 0, false, false, true⟩
  else
    -- Method 1: regular click
    let r1 : Bool × Bool × Bool × Nat :=
      if c.clickRaises then (false, false, outline0, 1)
      else (true, c.verifierOk, toggleIf c.clickEffective outline0, 1)
    -- Method 2: JavaScript click, only if not yet verified
    let r2 : Bool × Bool × Bool × Nat :=
      if r1.2.1 then r1
      else if c.jsClickRaises then (r1.1, r1.2.1, r1.2.2.1, r1.2.2.2 + 1)
      else (true, c.verifierOk, toggleIf c.clickEffective r1.2.2.1, r1.2.2.2 + 1)
    -- Method 3: direct onclick invocation, only if not yet verified
    -- (the onclick string is nonempty on this path: it parsed as setReserv)
    let r3 : Bool × Bool × Bool × Nat :=
      if r2.2.1 then r2
      else if c.onclickRaises then (r2.1, r2.2.1, r2.2.2.1, r2.2.2.2 + 1)
      else (true, c.verifierOk, toggleIf c.clickEffective r2.2.2.1, r2.2.2.2 + 1)
    let attempted := r3.1
    let selSuccess := r3.2.1
    let outline3 := r3.2.2.1
    let clicks3 := r3.2.2.2
    -- SVG verification (:358-371): selected iff the icon is now absent
    let svg := !outline3
    let finalSel := svg || selSuccess
    if attempted then ⟨outline3, true, [cid], clicks3, true, finalSel, false⟩
    else if finalSel then ⟨outline3, true, [cid], clicks3, false, finalSel, false⟩
    else ⟨outline3, false, [], clicks3, false, finalSel, false⟩

/-- Result of processing one available cell (one iteration of the loop at
`slot_extractor.py:116-443`).  `slots`, `flag` and `recorded` are the
observable contributions to `week_slots`, `slot_clicked_flag` and
`clicked_cell_ids`; `cellAfter` is the page state afterwards; `clicks`,
`attempted`, `verifiedSel` and `errored` are ghost observations. -/
structure CellRun where
  slots : List Slot
  flag : Bool
  recorded : List String
  cellAfter : Cell
  clicks : Nat
  attempted : Bool
  verifiedSel : Bool
  errored : Bool
  deriving DecidableEq

/-- Contribution of a cell the source skips (`continue`) before reaching
the repair block. -/
def skipRun (c : Cell) : CellRun := ⟨[], false, [], c, 0, false, false, false⟩

def mkSlot (park fac : String) (useYmd : Nat) (bcd icd : String)
    (startT endT : Nat) (cid timeSlot : String) : Slot :=
  { use_ymd := useYmd, bcd := bcd, icd := icd,
    bcd_name := if park = "" then "Park " ++ bcd else park,
    icd_name := if fac = "" then "Facility " ++ icd else fac,
    start_time := startT, end_time := endT, cell_id := cid, time_slot := timeSlot }

def processCell (chk : Checker) (clickSlots : Bool) (prev : List String)
    (park fac : String) (c : Cell) : CellRun :=
  match c.id with
  | none => skipRun c
  | some cid =>
    match splitCellId cid with
    | none => skipRun c
    | some (useYmd, timeSlot) =>
      -- is_already_selected := not outline; PHASE-2 repair block (:137-185)
      let rep : RepairOut :=
        if !clickSlots && prev.contains cid && c.outline then phase2Repair c cid
        else ⟨c.outline, !c.outline, [], false, 0, false⟩
      let c1 : Cell := { c with outline := rep.outline }
      -- append at :191 when is_already_selected and previously clicked
      let baseRec := rep.recorded ++ (if rep.alreadySel && prev.contains cid then [cid] else [])
      if rep.alreadySel && clickSlots then
        -- PHASE 1 skips already-selected cells entirely (:195-196)
        ⟨[], rep.flag, baseRec, c1, rep.clicks, false, rep.verifiedSel, false⟩
      else
        match c.onclick with
        | none => ⟨[], rep.flag, baseRec, c1, rep.clicks, false, rep.verifiedSel, false⟩
        | some .other => ⟨[], rep.flag, baseRec, c1, rep.clicks, false, rep.verifiedSel, false⟩
        | some .setReservMalformed =>
          -- `setReserv` present but the parameter regex fails (:211)
          ⟨[], rep.flag, baseRec, c1, rep.clicks, false, rep.verifiedSel, false⟩
        | some (.setReserv _arg1 bcd icd _n3 n4 n5 _n6) =>
          if checkerSkips chk useYmd bcd icd n4 then
            -- slot already in the database: user cancelled it (:227)
            ⟨[], rep.flag, baseRec, c1, rep.clicks, false, rep.verifiedSel, false⟩
          else
            let slot := mkSlot park fac useYmd bcd icd n4 n5 cid timeSlot
            if clickSlots then
              let ck := phase1Click c cid c1.outline
              ⟨[slot], rep.flag || ck.flag, baseRec ++ ck.recorded,
                { c with outline := ck.outline }, rep.clicks + ck.clicks,
                ck.attempted, rep.verifiedSel || ck.verifiedSel, ck.errored⟩
            else
              ⟨[slot], rep.flag, baseRec, c1, rep.clicks, false, rep.verifiedSel, false⟩

/-! ### Week level -/

/-- One week's page state: whether `table#week-info` becomes visible and
populated within the bounded waits, the caption-derived park/facility
names, and the cells matched by the `td.available` selectors. -/
structure Week where
  tableFound : Bool
  park : String
  fac : String
  cells : List Cell
  deriving DecidableEq

/-- Return value of `extract_slots_from_current_week`.  The source is
annotated `Tuple[List[Dict], int, List[str]]` but the table-not-found path
(`slot_extractor.py:102,105`) executes `return week_slots,
slot_clicked_flag` — a 2-tuple — so the embedding keeps both arities. -/
inductive WeekOut where
  | triple (slots : List Slot) (flag : Bool) (recorded : List String)
  | pair (slots : List Slot) (flag : Bool)
  deriving DecidableEq

structure WeekRun where
  out : WeekOut
  cellsAfter : List Cell
  trace : List CellRun
  deriving DecidableEq

/-- Flag component of a week result, for either arity. -/
def weekFlag : WeekOut → Bool
  | .triple _ f _ => f
  | .pair _ f => f

def runCells (chk : Checker) (clickSlots : Bool) (prev : List String)
    (park fac : String) :
    List Cell → List Slot × Bool × List String × List Cell × List CellRun
  | [] => ([], false, [], [], [])
  | c :: cs =>
    let r := processCell chk clickSlots prev park fac c
    let rest := runCells chk clickSlots prev park fac cs
    (r.slots ++ rest.1, r.flag || rest.2.1, r.recorded ++ rest.2.2.1,
      r.cellAfter :: rest.2.2.2.1, r :: rest.2.2.2.2)

def extract_slots_from_current_week (chk : Checker) (clickSlots : Bool)
    (prev : List String) (w : Week) : WeekRun :=
  if w.tableFound then
    let r := runCells chk clickSlots prev w.park w.fac w.cells
    ⟨.triple r.1 r.2.1 r.2.2.1, r.2.2.2.1, r.2.2.2.2⟩
  else
    ⟨.pair [] false, w.cells, []⟩

/-! ### Full forward+backward traversal -/

/-- Result of `extract_slots_from_weekly_calendar`: the source returns
`(slots, slots_clicked_flag)`; `clickedIds` is the internal
`all_clicked_slot_ids`, `trace` the per-cell ghost trace and `aborted`
records whether the 3-way unpacking of a 2-tuple raised (ending the
traversal at the top-level `except`, `slot_extractor.py:626`). -/
structure DriveRun where
  slots : List Slot
  flag : Bool
  clickedIds : List String
  trace : List CellRun
  aborted : Bool
  deriving DecidableEq

/-- PHASE 1 (forward, clicking enabled, `previously_clicked_ids = []`).
A week whose result is a 2-tuple makes the caller's unpacking at
`slot_extractor.py:516` raise `ValueError`; nothing of that week is bound
and the remaining weeks are never visited. -/
def phase1Weeks (chk : Checker) :
    List Week → List Slot × Bool × List String × List Week × List CellRun × Bool
  | [] => ([], false, [], [], [], false)
  | w :: ws =>
    let r := extract_slots_from_current_week chk true [] w
    match r.out with
    | .pair _ _ => ([], false, [], [], [], true)
    | .triple s f ids =>
      let rest := phase1Weeks chk ws
      (s ++ rest.1, f || rest.2.1, ids ++ rest.2.2.1,
        { w with cells := r.cellsAfter } :: rest.2.2.2.1,
        r.trace ++ rest.2.2.2.2.1, rest.2.2.2.2.2)

/-- PHASE 2 (backward, clicking disabled except repair; the per-week
clicked ids are logged but not accumulated, `slot_extractor.py:576-584`). -/
def phase2Weeks (chk : Checker) (prev : List String) :
    List Week → List Slot × Bool × List CellRun × Bool
  | [] => ([], false, [], false)
  | w :: ws =>
    let r := extract_slots_from_current_week chk false prev w
    match r.out with
    | .pair _ _ => ([], false, [], true)
    | .triple s f _ids =>
      let rest := phase2Weeks chk prev ws
      (s ++ rest.1, f || rest.2.1, r.trace ++ rest.2.2.1, rest.2.2.2)

/-- Embedding of `SlotExtractor.extract_slots_from_weekly_calendar`.
`weeks` is the sequence of week pages the forward navigation presents (the
source always iterates `range(6)`); the calendar is assumed to start on
week 1 and week navigation to succeed, which the initial
`navigate_back_to_week_one` and the per-transition checks establish in the
source.  PHASE 2 revisits the weeks in reverse order with the page state
left by PHASE 1.  An abort (2-tuple unpacking) anywhere is caught by the
top-level `except` and the accumulated `(slots, flag)` is returned. -/
def extract_slots_from_weekly_calendar (chk : Checker) (weeks : List Week) : DriveRun :=
  let p1 := phase1Weeks chk weeks
  if p1.2.2.2.2.2 then
    ⟨p1.1, p1.2.1, p1.2.2.1, p1.2.2.2.2.1, true⟩
  else
    let p2 := phase2Weeks chk p1.2.2.1 p1.2.2.2.1.reverse
    ⟨p1.1 ++ p2.1, p1.2.1 || p2.2.1, p1.2.2.1,
      p1.2.2.2.2.1 ++ p2.2.2.1, p2.2.2.2⟩

/-! ## Selection verifier (`cell_selection_verifier.py`)

The verifier reads a number of independent signals from the page; each
probe is modelled as a field of `VCell`.  `outlineIcon` (whether the
`calendar_available_outline.svg` icon is inside the cell) is carried as
well, because the specification claims the verifier consults it — the
source function never reads it (the icon check lives in the caller). -/

structure VCell where
  /-- the cell's `data-selected` attribute (`none` = absent) -/
  dataSelected : Option String
  /-- the cell's `class` attribute (`''` when absent, as in the source) -/
  className : String
  /-- the cell's `aria-selected` attribute -/
  ariaSelected : Option String
  /-- the cell's `style` attribute (`''` when absent) -/
  styleAttr : String
  /-- some ancestor carries `data-selected='1'`, a `selected`/`active`
  class, or `aria-selected='true'` (probe at :77-103) -/
  ancestorMarked : Bool
  /-- some sibling carries such a marker (probe at :106-126) -/
  siblingMarked : Bool
  /-- the page-level script state mentions the cell id (probe at :129-163) -/
  jsRegistryHit : Bool
  /-- some hidden input's value/name encodes the cell id (probe at :167-185) -/
  hiddenInputHit : Bool
  /-- the "still available" icon image is inside the cell -/
  outlineIcon : Bool
  /-- some probe raises (the catch-all at :215 returns `False`) -/
  raises : Bool
  deriving DecidableEq

/-- Weak in-cell indicators accepted at `cell_selection_verifier.py:206-211`. -/
def weakMarker (c : VCell) : Bool :=
  c.ariaSelected == some "true" ||
  strHas c.className "bg-" || strHas c.className "text-" ||
  (!(c.styleAttr = "") && strHas (lowerStr c.styleAttr) "background")

/-- Embedding of `CellSelectionVerifier.verify_cell_selection`.  The
computed-style probe (:60-74) and the sibling probe (:106-126) only log
and never return, so they contribute nothing to the result; no probe of
the icon image appears anywhere in the function. -/
def verify_cell_selection (c : VCell) : Bool :=
  if c.raises then false
  else if c.dataSelected == some "1" then true
  else if strHas (lowerStr c.className) "selected" || strHas (lowerStr c.className) "active" then true
  else if c.ancestorMarked then true
  else if c.jsRegistryHit then true
  else if c.hiddenInputHit then true
  else if weakMarker c then true
  else false

/-- The decision procedure the specification (§4.3) ascribes to
`verify_cell_selection`, written from the spec's words for comparison:
(1) marker attribute/class on the cell itself, (2) absence of the "still
available" icon inside the cell, (3) ancestor/sibling markers, (4) the
script-held selection registry, (5) hidden form fields — first positive
signal wins, errors give `false`. -/
def verify_cell_selection_claimed (c : VCell) : Bool :=
  if c.raises then false
  else if c.dataSelected == some "1" ||
      strHas (lowerStr c.className) "selected" || strHas (lowerStr c.className) "active" then true
  else if !c.outlineIcon then true
  else if c.ancestorMarked || c.siblingMarked then true
  else if c.jsRegistryHit then true
  else if c.hiddenInputHit then true
  else false

/-! ## Login handler (`login_handler.py`) -/

/-- What `is_logged_in` reads from the page. `raises` covers any of the
reads (`page.title()`, `page.content()`) raising — the catch-all at
`login_handler.py:252` returns `False`. -/
structure LoginPage where
  closed : Bool
  url : String
  title : String
  content : String
  raises : Bool
  deriving DecidableEq

/-- Login-form field markers checked at `login_handler.py:219-223`. -/
def hasLoginForm (p : LoginPage) : Bool :=
  strHas p.content "#userId" ||
  strHas p.content "id=\"userId\"" ||
  strHas p.content "name=\"userId\""

/-- URL patterns treated as logged-in indicators (`login_handler.py:206-214`). -/
def urlSuccessPatterns : List String :=
  ["UserAttestation", "index.jsp", "pawab2000", "rsvWOpe", "rsvWInst",
    "rsvWGet", "rsvWCredit"]

/-- Embedding of `LoginHandler.is_logged_in`. -/
def is_logged_in (p : LoginPage) : Bool :=
  if p.raises then false
  else if p.closed then false
  else if strHas p.content "セッションタイムアウト" || strHas p.content "Session timeout" then
    false
  else if (strHas p.title "エラー" || strHas (lowerStr p.title) "error") &&
      (strHas p.content "セッション" || strHas p.content "Session") then
    false
  else
    let hasLogout := strHas p.content "ログアウト" || strHas (lowerStr p.content) "logout"
    let hasUserInfo := strHas p.content "様" || strHas p.content "有効期限"
    let isHome := strHas p.title "ホーム画面" || strHas p.title "ホーム"
    let urlMatches := urlSuccessPatterns.any (fun pat => strHas p.url pat)
    let isLoginPage := strHas p.url "TransUserLogin" ||
      (strHas p.url "UserLogin" && strHas p.url "Trans")
    (hasLogout || (urlMatches && (isHome || hasLogout)) || (hasUserInfo && urlMatches)) &&
      !hasLoginForm p && !isLoginPage

end BookModel

namespace BookModel

/-! ## Concrete inputs used by counterexamples and witnesses -/

def tstCell : Cell :=
  { id := some "20260101_0900", outline := true,
    onclick := some (.setReserv "d" "1020" "10200020" 10 900 1100 0),
    scrollRaises := false, clickRaises := false, jsClickRaises := false,
    onclickRaises := false, clickEffective := true, verifierOk := false }

/-- An available cell whose scroll/setup step raises: the outer `except`
at `slot_extractor.py:401` then sets the flag and records the id although
no click was ever issued and nothing was verified. -/
def c2Cell : Cell :=
  { id := some "20260101_0900", outline := true,
    onclick := some (.setReserv "d" "1020" "10200020" 10 900 1100 0),
    scrollRaises := true, clickRaises := false, jsClickRaises := false,
    onclickRaises := false, clickEffective := true, verifierOk := false }

/-- Six-week calendar whose only available cell is `c2Cell` in week 1. -/
def c2Weeks : List Week :=
  [⟨true, "P", "F", [c2Cell]⟩, ⟨true, "P", "F", []⟩, ⟨true, "P", "F", []⟩,
    ⟨true, "P", "F", []⟩, ⟨true, "P", "F", []⟩, ⟨true, "P", "F", []⟩]

/-- Six-week calendar whose week-2 table never appears (bounded wait
fails) while weeks 1 and 3 each hold one available, clickable cell. -/
def c4Weeks : List Week :=
  [⟨true, "P", "F", [tstCell]⟩, ⟨false, "P", "F", []⟩,
    ⟨true, "P", "F", [{ tstCell with id := some "20260103_0900" }]⟩,
    ⟨true, "P", "F", []⟩, ⟨true, "P", "F", []⟩, ⟨true, "P", "F", []⟩]

/-- An already-selected available cell (icon absent) carrying a valid,
parseable `setReserv` handler. -/
def c5Cell : Cell := { tstCell with outline := false }

/-- A calendar cell for the verifier with no selection marker of any kind
and with the "still available" icon absent. -/
def c8Cell : VCell :=
  { dataSelected := none, className := "", ariaSelected := none, styleAttr := "",
    ancestorMarked := false, siblingMarked := false, jsRegistryHit := false,
    hiddenInputHit := false, outlineIcon := false, raises := false }

/-! ## Helper lemmas about the click and repair blocks -/

theorem phase1Click_recorded_eq (c : Cell) (cid : String) (o : Bool) :
    (phase1Click c cid o).recorded
      = (if (phase1Click c cid o).flag then [cid] else []) := by
  rcases c with ⟨i, ol, oc, sc, cr, jr, onr, eff, vok⟩
  cases sc <;> cases cr <;> cases jr <;> cases onr <;> cases eff <;> cases vok <;> cases o <;>
    simp [phase1Click, toggleIf]

theorem phase1Click_flag_char (c : Cell) (cid : String) (o : Bool) :
    (phase1Click c cid o).flag
      = ((phase1Click c cid o).attempted || (phase1Click c cid o).verifiedSel
          || (phase1Click c cid o).errored) := by
  rcases c with ⟨i, ol, oc, sc, cr, jr, onr, eff, vok⟩
  cases sc <;> cases cr <;> cases jr <;> cases onr <;> cases eff <;> cases vok <;> cases o <;>
    simp [phase1Click, toggleIf]

theorem phase2Repair_flag_char (c : Cell) (cid : String) :
    (phase2Repair c cid).flag = (phase2Repair c cid).verifiedSel := by
  rcases c with ⟨i, ol, oc, sc, cr, jr, onr, eff, vok⟩
  cases ol <;> cases sc <;> cases cr <;> cases eff <;> simp [phase2Repair, toggleIf]

theorem phase2Repair_recorded_eq (c : Cell) (cid : String) :
    (phase2Repair c cid).recorded
      = (if (phase2Repair c cid).flag then [cid] else []) := by
  rcases c with ⟨i, ol, oc, sc, cr, jr, onr, eff, vok⟩
  cases ol <;> cases sc <;> cases cr <;> cases eff <;> simp [phase2Repair, toggleIf]

theorem phase2Repair_clean_spec (c : Cell) (cid : String) (h1 : c.outline = true)
    (h2 : c.scrollRaises = false) (h3 : c.clickRaises = false) :
    (phase2Repair c cid).clicks = 1 ∧
      ((phase2Repair c cid).recorded.contains cid = true ↔ c.clickEffective = true) ∧
      (phase2Repair c cid).alreadySel = c.clickEffective := by
  rcases c with ⟨i, ol, oc, sc, cr, jr, onr, eff, vok⟩
  simp only at h1 h2 h3
  subst h1; subst h2; subst h3
  cases eff <;> simp [phase2Repair, toggleIf]

theorem processCell_flag_char (chk : Checker) (cs : Bool) (prev : List String)
    (park fac : String) (c : Cell) :
    (processCell chk cs prev park fac c).flag
      = ((processCell chk cs prev park fac c).attempted
          || (processCell chk cs prev park fac c).verifiedSel
          || (processCell chk cs prev park fac c).errored) := by
  unfold processCell
  cases hid : c.id with
  | none => simp [skipRun]
  | some cid =>
    cases hsp : splitCellId cid with
    | none => simp [hsp, skipRun]
    | some pr =>
      obtain ⟨d, ts⟩ := pr
      simp only [hsp]
      by_cases hrep : (!cs && prev.contains cid && c.outline) = true
      · simp only [hrep, if_true]
        split
        · simp [phase2Repair_flag_char]
        · split
          · simp [phase2Repair_flag_char]
          · simp [phase2Repair_flag_char]
          · simp [phase2Repair_flag_char]
          · split
            · simp [phase2Repair_flag_char]
            · split
              · simp [phase2Repair_flag_char, phase1Click_flag_char]
                generalize (phase2Repair c cid).verifiedSel = a
                generalize (phase1Click c cid (phase2Repair c cid).outline).attempted = b
                generalize (phase1Click c cid (phase2Repair c cid).outline).verifiedSel = e
                generalize (phase1Click c cid (phase2Repair c cid).outline).errored = f
                cases a <;> cases b <;> cases e <;> cases f <;> rfl
              · simp [phase2Repair_flag_char]
      · simp only [hrep, Bool.false_eq_true, if_false]
        split
        · simp
        · split
          · simp
          · simp
          · simp
          · split
            · simp
            · split
              · simp [phase1Click_flag_char]
              · simp

theorem runCells_trace_eq (chk : Checker) (cs : Bool) (prev : List String)
    (park fac : String) : ∀ cells : List Cell,
    (runCells chk cs prev park fac cells).2.2.2.2
      = cells.map (processCell chk cs prev park fac) := by
  intro cells
  induction cells with
  | nil => rfl
  | cons x xs ih => simp [runCells, ih]

theorem runCells_flag_eq (chk : Checker) (cs : Bool) (prev : List String)
    (park fac : String) : ∀ cells : List Cell,
    (runCells chk cs prev park fac cells).2.1
      = cells.any (fun c => (processCell chk cs prev park fac c).flag) := by
  intro cells
  induction cells with
  | nil => rfl
  | cons x xs ih => simp [runCells, ih]

theorem runCells_recorded_eq (chk : Checker) (cs : Bool) (prev : List String)
    (park fac : String) : ∀ cells : List Cell,
    (runCells chk cs prev park fac cells).2.2.1
      = (cells.map (fun c => (processCell chk cs prev park fac c).recorded)).flatten := by
  intro cells
  induction cells with
  | nil => rfl
  | cons x xs ih => simp [runCells, ih]

theorem runCells_slots_eq (chk : Checker) (cs : Bool) (prev : List String)
    (park fac : String) : ∀ cells : List Cell,
    (runCells chk cs prev park fac cells).1
      = (cells.map (fun c => (processCell chk cs prev park fac c).slots)).flatten := by
  intro cells
  induction cells with
  | nil => rfl
  | cons x xs ih => simp [runCells, ih]

theorem processCell_flag_iff_recorded (chk : Checker) (park fac : String) (c : Cell) :
    ((processCell chk true [] park fac c).flag = true
      ↔ (processCell chk true [] park fac c).recorded ≠ []) := by
  unfold processCell
  cases hid : c.id with
  | none => simp [skipRun]
  | some cid =>
    cases hsp : splitCellId cid with
    | none => simp [hsp, skipRun]
    | some pr =>
      obtain ⟨d, ts⟩ := pr
      simp only [hsp, Bool.not_true, Bool.false_and, Bool.false_eq_true, if_false,
        List.contains_nil, Bool.and_false]
      split
      · simp
      · split
        · simp
        · simp
        · simp
        · split
          · simp
          · split
            · rw [phase1Click_recorded_eq]
              cases hf : (phase1Click c cid c.outline).flag <;> simp [hf]
            · simp

/-- Any-over-concatenation: a pointwise flag/record iff lifts to lists. -/
theorem any_iff_join_ne_nil {α : Type} (P : α → Bool) (R : α → List String)
    (h : ∀ a, P a = true ↔ R a ≠ []) :
    ∀ l : List α, (l.any P = true ↔ (l.map R).flatten ≠ []) := by
  intro l
  induction l with
  | nil => simp
  | cons x xs ih =>
    simp only [List.any_cons, List.map_cons, List.flatten_cons, Bool.or_eq_true, ih, h x,
      ne_eq, List.append_eq_nil, not_and_or]

theorem week_flag_eq_trace_any (chk : Checker) (cs : Bool) (prev : List String)
    (w : Week) :
    weekFlag (extract_slots_from_current_week chk cs prev w).out
      = (extract_slots_from_current_week chk cs prev w).trace.any (fun r => r.flag) := by
  by_cases ht : w.tableFound = true
  · simp only [extract_slots_from_current_week, ht, if_true, weekFlag,
      runCells_flag_eq, runCells_trace_eq]
    induction w.cells with
    | nil => rfl
    | cons x xs ih => simp [ih]
  · simp [extract_slots_from_current_week, ht, weekFlag]

theorem phase1Weeks_flag_eq_trace (chk : Checker) : ∀ weeks : List Week,
    (phase1Weeks chk weeks).2.1
      = (phase1Weeks chk weeks).2.2.2.2.1.any (fun r => r.flag) := by
  intro weeks
  induction weeks with
  | nil => rfl
  | cons w ws ih =>
    cases hout : (extract_slots_from_current_week chk true [] w).out with
    | pair s0 f0 => simp [phase1Weeks, hout]
    | triple s f ids =>
      have hw := week_flag_eq_trace_any chk true [] w
      rw [hout] at hw
      simp only [weekFlag] at hw
      simp [phase1Weeks, hout, ih, hw, List.any_append]

theorem phase2Weeks_flag_eq_trace (chk : Checker) (prev : List String) :
    ∀ weeks : List Week,
    (phase2Weeks chk prev weeks).2.1
      = (phase2Weeks chk prev weeks).2.2.1.any (fun r => r.flag) := by
  intro weeks
  induction weeks with
  | nil => rfl
  | cons w ws ih =>
    cases hout : (extract_slots_from_current_week chk false prev w).out with
    | pair s0 f0 => simp [phase2Weeks, hout]
    | triple s f ids =>
      have hw := week_flag_eq_trace_any chk false prev w
      rw [hout] at hw
      simp only [weekFlag] at hw
      simp [phase2Weeks, hout, ih, hw, List.any_append]

theorem traversal_flag_eq_trace_any (chk : Checker) (weeks : List Week) :
    (extract_slots_from_weekly_calendar chk weeks).flag
      = (extract_slots_from_weekly_calendar chk weeks).trace.any (fun r => r.flag) := by
  unfold extract_slots_from_weekly_calendar
  by_cases hab : (phase1Weeks chk weeks).2.2.2.2.2 = true
  · simp [hab, phase1Weeks_flag_eq_trace]
  · simp [hab, phase1Weeks_flag_eq_trace, phase2Weeks_flag_eq_trace, List.any_append]

theorem mem_runCells_trace (chk : Checker) (cs : Bool) (prev : List String)
    (park fac : String) (cells : List Cell) (r : CellRun)
    (h : r ∈ (runCells chk cs prev park fac cells).2.2.2.2) :
    ∃ c, r = processCell chk cs prev park fac c := by
  rw [runCells_trace_eq] at h
  obtain ⟨c, -, hc⟩ := List.mem_map.mp h
  exact ⟨c, hc.symm⟩

theorem mem_week_trace (chk : Checker) (cs : Bool) (prev : List String)
    (w : Week) (r : CellRun)
    (h : r ∈ (extract_slots_from_current_week chk cs prev w).trace) :
    ∃ c, r = processCell chk cs prev w.park w.fac c := by
  by_cases ht : w.tableFound = true
  · rw [extract_slots_from_current_week, if_pos ht] at h
    exact mem_runCells_trace chk cs prev w.park w.fac w.cells r h
  · rw [extract_slots_from_current_week, if_neg ht] at h
    exact absurd h (List.not_mem_nil r)

theorem mem_phase1_trace (chk : Checker) : ∀ (weeks : List Week) (r : CellRun),
    r ∈ (phase1Weeks chk weeks).2.2.2.2.1 →
    ∃ park fac c, r = processCell chk true [] park fac c := by
  intro weeks
  induction weeks with
  | nil => intro r h; exact absurd h (List.not_mem_nil r)
  | cons w ws ih =>
    intro r h
    cases hout : (extract_slots_from_current_week chk true [] w).out with
    | pair s0 f0 => simp [phase1Weeks, hout] at h
    | triple s f ids =>
      simp only [phase1Weeks, hout, List.mem_append] at h
      rcases h with h | h
      · obtain ⟨c, hc⟩ := mem_week_trace chk true [] w r h
        exact ⟨w.park, w.fac, c, hc⟩
      · exact ih r h

theorem mem_phase2_trace (chk : Checker) (prev : List String) :
    ∀ (weeks : List Week) (r : CellRun),
    r ∈ (phase2Weeks chk prev weeks).2.2.1 →
    ∃ park fac c, r = processCell chk false prev park fac c := by
  intro weeks
  induction weeks with
  | nil => intro r h; exact absurd h (List.not_mem_nil r)
  | cons w ws ih =>
    intro r h
    cases hout : (extract_slots_from_current_week chk false prev w).out with
    | pair s0 f0 => simp [phase2Weeks, hout] at h
    | triple s f ids =>
      simp only [phase2Weeks, hout, List.mem_append] at h
      rcases h with h | h
      · obtain ⟨c, hc⟩ := mem_week_trace chk false prev w r h
        exact ⟨w.park, w.fac, c, hc⟩
      · exact ih r h

theorem mem_traversal_trace_flag_char (chk : Checker) (weeks : List Week)
    (r : CellRun) (h : r ∈ (extract_slots_from_weekly_calendar chk weeks).trace) :
    r.flag = (r.attempted || r.verifiedSel || r.errored) := by
  unfold extract_slots_from_weekly_calendar at h
  by_cases hab : (phase1Weeks chk weeks).2.2.2.2.2 = true
  · simp only [hab, if_true] at h
    obtain ⟨park, fac, c, hc⟩ := mem_phase1_trace chk weeks r h
    rw [hc]; exact processCell_flag_char chk true [] park fac c
  · simp only [hab, Bool.false_eq_true, if_false] at h
    rcases List.mem_append.mp h with h1 | h2
    · obtain ⟨park, fac, c, hc⟩ := mem_phase1_trace chk weeks r h1
      rw [hc]; exact processCell_flag_char chk true [] park fac c
    · obtain ⟨park, fac, c, hc⟩ := mem_phase2_trace chk _ _ r h2
      rw [hc]; exact processCell_flag_char chk false _ park fac c

/-! ## Claim theorems -/

/-- Claim C1: during a Phase-1 (forward, click-enabled) pass the driver
never issues any click — direct, script, or onclick invocation — on an
available cell that is already selected, i.e. one without the
`calendar_available_outline.svg` icon.  A Phase-1 pass processes every
available cell through `processCell` with `clickSlots := true`; `clicks`
counts every click operation of any kind issued on the cell. -/
theorem phase1_never_clicks_selected_cell (chk : Checker) (prev : List String)
    (park fac : String) (c : Cell) (h : c.outline = false) :
    (processCell chk true prev park fac c).clicks = 0 := by
  unfold processCell
  cases hid : c.id with
  | none => simp [skipRun]
  | some cid =>
    cases hsp : splitCellId cid with
    | none => simp [hsp, skipRun]
    | some pr =>
      obtain ⟨d, ts⟩ := pr
      simp [hsp, h]

/-- Witness for C1: a concrete already-selected cell with a valid
`setReserv` handler receives zero clicks in Phase 1. -/
theorem phase1_never_clicks_selected_cell_witness :
    ({ tstCell with outline := false } : Cell).outline = false ∧
      (processCell noChecker true [] "P" "F" { tstCell with outline := false }).clicks = 0 :=
  ⟨rfl, phase1_never_clicks_selected_cell noChecker [] "P" "F" _ rfl⟩

/-- Claim C7: `is_on_week_one` is true iff some cell id in the rendered
week table has a date prefix (the part before the first underscore,
parsed as an integer) equal to today's `YYYYMMDD` value, and it is false
— without raising, which the total embedding reflects — whenever the
table cannot be found at all. -/
theorem is_on_week_one_charact (today : Nat) :
    is_on_week_one today none = false ∧
      ∀ ids : List String,
        (is_on_week_one today (some ids) = true ↔ ∃ s ∈ ids, cellDateVal s = some today) := by
  refine ⟨rfl, fun ids => ?_⟩
  simp [is_on_week_one, List.any_eq_true, beq_iff_eq]

/-- Witness for C7 (the iff side): a table containing today's date as a
cell-id prefix is recognised as week 1. -/
theorem is_on_week_one_charact_witness :
    is_on_week_one 20261012 (some ["20261012_0900", "x"]) = true :=
  ((is_on_week_one_charact 20261012).2 ["20261012_0900", "x"]).mpr
    ⟨"20261012_0900", by simp, by decide⟩

/-- Claim C9: `is_logged_in` returns `false` whenever the page content
contains a login-form field marker (`#userId`, `id="userId"` or
`name="userId"`), regardless of every positive indicator — including a
simultaneously present logout marker. -/
theorem login_form_marker_wins (p : LoginPage) (h : hasLoginForm p = true) :
    is_logged_in p = false := by
  unfold is_logged_in
  split
  · rfl
  · split
    · rfl
    · split
      · rfl
      · split
        · rfl
        · simp [h]

/-- Invariant of the `navigate_back_to_week_one` loop: starting with
`clicks` clicks already issued and `fuel` loop iterations left, at most
`fuel` further clicks are issued, the returned Boolean is exactly the
week-1 self-report of the state at which the function stopped, and every
state passed through before stopping reported "not week 1". -/
theorem navBackLoop_spec (env : Nat → NavState) (fuel : Nat) :
    ∀ clicks,
      clicks ≤ (navBackLoop env fuel clicks).2 ∧
      (navBackLoop env fuel clicks).2 ≤ clicks + fuel ∧
      (navBackLoop env fuel clicks).1 = (env (navBackLoop env fuel clicks).2).onWeekOne ∧
      ∀ j, clicks ≤ j → j < (navBackLoop env fuel clicks).2 → (env j).onWeekOne = false := by
  induction fuel with
  | zero =>
    intro clicks
    exact ⟨le_rfl, Nat.le_add_right clicks 0, rfl,
      fun j hj hj2 => absurd hj2 (Nat.not_lt.mpr hj)⟩
  | succ n ih =>
    intro clicks
    simp only [navBackLoop]
    by_cases h1 : (env clicks).onWeekOne = true
    · rw [if_pos h1]
      exact ⟨le_rfl, Nat.le_add_right clicks (n + 1), h1.symm,
        fun j hj hj2 => absurd hj2 (Nat.not_lt.mpr hj)⟩
    · rw [if_neg h1]
      by_cases h2 : ((env clicks).buttonMissing || (env clicks).buttonDisabled) = true
      · rw [if_pos h2]
        exact ⟨le_rfl, Nat.le_add_right clicks (n + 1), rfl,
          fun j hj hj2 => absurd hj2 (Nat.not_lt.mpr hj)⟩
      · rw [if_neg h2]
        by_cases h3 : (env (clicks + 1)).onWeekOne = true
        · rw [if_pos h3]
          refine ⟨Nat.le_succ clicks, show clicks + 1 ≤ clicks + (n + 1) by omega,
            h3.symm, fun j hj hj2 => ?_⟩
          have hj2' : j < clicks + 1 := hj2
          have hje : j = clicks := by omega
          subst hje
          simpa using h1
        · rw [if_neg h3]
          obtain ⟨a, b, cc, d⟩ := ih (clicks + 1)
          refine ⟨Nat.le_trans (Nat.le_succ clicks) a, by omega, cc, fun j hj hj2 => ?_⟩
          rcases Nat.eq_or_lt_of_le hj with rfl | hlt
          · simpa using h1
          · exact d j (by omega) hj2

/-- Counterexample to claim C6 as stated: when the previous-week control
is missing and the calendar does not self-report week 1, the function
returns `false` immediately after zero clicks — it neither treats the
missing control as "already at week 1" (which would return `true`) nor
waits until the 6-click bound is exhausted before returning `false`. -/
theorem navigate_back_counterexample :
    navigate_back_to_week_one (fun _ => ⟨false, true, false⟩) = (false, 0) := by decide

/-- Claim C6 (amended): `navigate_back_to_week_one` clicks the
previous-week control at most 6 times and re-checks `is_on_week_one`
after every click, returning `true` as soon as week 1 is confirmed; on a
disabled or missing control it re-checks and returns the week-1
self-report immediately (so `false` can be returned before the bound is
exhausted); in every case the returned Boolean equals the calendar's
week-1 self-report at the stopping point, and week 1 was not reported at
any earlier point. -/
theorem navigate_back_bound_and_result (env : Nat → NavState) :
    (navigate_back_to_week_one env).2 ≤ 6 ∧
      (navigate_back_to_week_one env).1
        = (env (navigate_back_to_week_one env).2).onWeekOne ∧
      ∀ j, j < (navigate_back_to_week_one env).2 → (env j).onWeekOne = false := by
  obtain ⟨-, h2, h3, h4⟩ := navBackLoop_spec env 6 0
  exact ⟨by simpa using h2, h3, fun j hj => h4 j (Nat.zero_le j) hj⟩

/-- Witness for C6 (amended) at a concrete environment that reaches week
1 after two clicks. -/
theorem navigate_back_bound_and_result_witness :
    (navigate_back_to_week_one (fun k => ⟨k ≥ 2, false, false⟩)).2 ≤ 6 ∧
      (navigate_back_to_week_one (fun k => ⟨k ≥ 2, false, false⟩)).1
        = ((fun k : Nat => (⟨k ≥ 2, false, false⟩ : NavState))
            (navigate_back_to_week_one (fun k => ⟨k ≥ 2, false, false⟩)).2).onWeekOne ∧
      ∀ j, j < (navigate_back_to_week_one (fun k => ⟨k ≥ 2, false, false⟩)).2 →
        ((fun k : Nat => (⟨k ≥ 2, false, false⟩ : NavState)) j).onWeekOne = false :=
  navigate_back_bound_and_result (fun k => ⟨k ≥ 2, false, false⟩)

/-- Witness for C9: a page whose content holds both a logout marker and a
`userId` login-form field is classified as not logged in. -/
theorem login_form_marker_wins_witness :
    hasLoginForm ⟨false, "pawab2000", "ホーム画面", "logout id=\"userId\"", false⟩ = true ∧
      is_logged_in ⟨false, "pawab2000", "ホーム画面", "logout id=\"userId\"", false⟩ = false :=
  ⟨by decide, login_form_marker_wins _ (by decide)⟩

/-- Claim C10: for an invocation of `extract_slots_from_current_week`
with clicking enabled and an empty previously-clicked list that returns a
3-tuple, the per-week flag is 1 iff the returned clicked-cell-id list is
non-empty: every path that sets the flag also records a cell id and vice
versa. -/
theorem week_flag_iff_clicked_ids (chk : Checker) (w : Week) (s : List Slot)
    (f : Bool) (ids : List String)
    (h : (extract_slots_from_current_week chk true [] w).out = WeekOut.triple s f ids) :
    (f = true ↔ ids ≠ []) := by
  by_cases ht : w.tableFound = true
  · simp only [extract_slots_from_current_week, ht, if_true, WeekOut.triple.injEq] at h
    obtain ⟨h1, h2, h3⟩ := h
    subst h2; subst h3
    rw [runCells_flag_eq, runCells_recorded_eq]
    exact any_iff_join_ne_nil _ _ (processCell_flag_iff_recorded chk w.park w.fac) w.cells
  · simp only [Bool.not_eq_true] at ht
    simp [extract_slots_from_current_week, ht] at h

/-- Witness for C10 at a one-cell week whose cell is clicked and
recorded. -/
theorem week_flag_iff_clicked_ids_witness :
    ((true : Bool) = true ↔ (["20260101_0900"] : List String) ≠ []) :=
  week_flag_iff_clicked_ids noChecker ⟨true, "P", "F", [tstCell]⟩
    [mkSlot "P" "F" 20260101 "1020" "10200020" 900 1100 "20260101_0900" "0900"]
    true ["20260101_0900"] (by decide)

/-- All-empty weeks leave Phase 1 with an empty trace and propagate empty
cell lists to the weeks handed to Phase 2. -/
theorem phase1Weeks_empty (chk : Checker) : ∀ weeks : List Week,
    (∀ w ∈ weeks, w.cells = []) →
    (phase1Weeks chk weeks).2.2.2.2.1 = [] ∧
      ∀ w' ∈ (phase1Weeks chk weeks).2.2.2.1, w'.cells = [] := by
  intro weeks
  induction weeks with
  | nil =>
    intro _
    exact ⟨rfl, fun w' hw' => absurd hw' (List.not_mem_nil w')⟩
  | cons w ws ih =>
    intro h
    have hw : w.cells = [] := h w (List.mem_cons_self w ws)
    have hws := ih (fun x hx => h x (List.mem_cons_of_mem w hx))
    by_cases ht : w.tableFound = true
    · have hout : (extract_slots_from_current_week chk true [] w).out
          = WeekOut.triple [] false [] := by
        simp [extract_slots_from_current_week, ht, hw, runCells]
      have htr : (extract_slots_from_current_week chk true [] w).trace = [] := by
        simp [extract_slots_from_current_week, ht, hw, runCells]
      have hca : (extract_slots_from_current_week chk true [] w).cellsAfter = [] := by
        simp [extract_slots_from_current_week, ht, hw, runCells]
      refine ⟨?_, ?_⟩
      · simp [phase1Weeks, hout, htr, hws.1]
      · simp only [phase1Weeks, hout]
        intro w' hw'
        rcases List.mem_cons.mp hw' with rfl | hmem
        · simp [hca]
        · exact hws.2 w' hmem
    · have hout : (extract_slots_from_current_week chk true [] w).out
          = WeekOut.pair [] false := by
        simp only [Bool.not_eq_true] at ht
        simp [extract_slots_from_current_week, ht]
      refine ⟨?_, ?_⟩
      · simp [phase1Weeks, hout]
      · simp only [phase1Weeks, hout]
        intro w' hw'
        exact absurd hw' (List.not_mem_nil w')

/-- All-empty weeks give Phase 2 a false flag. -/
theorem phase2Weeks_empty (chk : Checker) (prev : List String) :
    ∀ weeks : List Week, (∀ w ∈ weeks, w.cells = []) →
    (phase2Weeks chk prev weeks).2.1 = false := by
  intro weeks
  induction weeks with
  | nil => intro _; rfl
  | cons w ws ih =>
    intro h
    have hw : w.cells = [] := h w (List.mem_cons_self w ws)
    have hws := ih (fun x hx => h x (List.mem_cons_of_mem w hx))
    by_cases ht : w.tableFound = true
    · have hout : (extract_slots_from_current_week chk false prev w).out
          = WeekOut.triple [] false [] := by
        simp [extract_slots_from_current_week, ht, hw, runCells]
      simp [phase2Weeks, hout, hws]
    · have hout : (extract_slots_from_current_week chk false prev w).out
          = WeekOut.pair [] false := by
        simp only [Bool.not_eq_true] at ht
        simp [extract_slots_from_current_week, ht]
      simp [phase2Weeks, hout]

/-- Counterexample to claim C2 as stated: on a six-week calendar whose
only available cell raises during the pre-click scroll/setup, the
aggregate flag comes back 1 although no click was ever attempted on any
cell (zero click operations were issued) and no selection was ever
verified — the outer exception handler at `slot_extractor.py:401-413`
sets the flag anyway. -/
theorem traversal_flag_counterexample :
    (extract_slots_from_weekly_calendar noChecker c2Weeks).flag = true ∧
      ((extract_slots_from_weekly_calendar noChecker c2Weeks).trace.all
        (fun r => r.clicks == 0 && !r.attempted && !r.verifiedSel)) = true := by
  exact ⟨by decide, by decide⟩

/-- Claim C2 (amended): the aggregate click-flag of the full
forward+backward traversal is 1 iff some processed cell's interaction
attempted a click, verified a selection, or hit the unexpected-error path
that the source counts as clicked; in particular, a calendar with no
available cells yields flag 0. -/
theorem traversal_flag_iff_attempt_or_verified (chk : Checker) (weeks : List Week) :
    ((extract_slots_from_weekly_calendar chk weeks).flag = true ↔
      ∃ r ∈ (extract_slots_from_weekly_calendar chk weeks).trace,
        (r.attempted || r.verifiedSel || r.errored) = true) ∧
    ((∀ w ∈ weeks, w.cells = []) →
      (extract_slots_from_weekly_calendar chk weeks).flag = false) := by
  constructor
  · rw [traversal_flag_eq_trace_any, List.any_eq_true]
    constructor
    · rintro ⟨r, hr, hfl⟩
      exact ⟨r, hr, (mem_traversal_trace_flag_char chk weeks r hr) ▸ hfl⟩
    · rintro ⟨r, hr, hx⟩
      exact ⟨r, hr, (mem_traversal_trace_flag_char chk weeks r hr).symm ▸ hx⟩
  · intro hempty
    have hp1 := phase1Weeks_empty chk weeks hempty
    have hp1flag : (phase1Weeks chk weeks).2.1 = false := by
      rw [phase1Weeks_flag_eq_trace, hp1.1]
      rfl
    unfold extract_slots_from_weekly_calendar
    by_cases hab : (phase1Weeks chk weeks).2.2.2.2.2 = true
    · simp [hab, hp1flag]
    · have hp2flag : (phase2Weeks chk (phase1Weeks chk weeks).2.2.1
          (phase1Weeks chk weeks).2.2.2.1.reverse).2.1 = false := by
        refine phase2Weeks_empty chk _ _ (fun w' hw' => ?_)
        exact hp1.2 w' (List.mem_reverse.mp hw')
      simp [hab, hp1flag, hp2flag]

/-- Witness for C2 (amended) at a one-week calendar with no available
cells: the flag is 0. -/
theorem traversal_flag_iff_attempt_or_verified_witness :
    (extract_slots_from_weekly_calendar noChecker [⟨true, "P", "F", []⟩]).flag = false :=
  (traversal_flag_iff_attempt_or_verified noChecker [⟨true, "P", "F", []⟩]).2 (by decide)

/-- Value of the repair block when the re-click lands and the site
registers it. -/
theorem phase2Repair_eff (c : Cell) (cid : String) (h1 : c.outline = true)
    (h2 : c.scrollRaises = false) (h3 : c.clickRaises = false)
    (h4 : c.clickEffective = true) :
    phase2Repair c cid = ⟨false, true, [cid], true, 1, true⟩ := by
  simp [phase2Repair, h1, h2, h3, h4, toggleIf]

/-- Value of the repair block when the re-click lands but the site does
not register it (icon still present afterwards). -/
theorem phase2Repair_ineff (c : Cell) (cid : String) (h1 : c.outline = true)
    (h2 : c.scrollRaises = false) (h3 : c.clickRaises = false)
    (h4 : c.clickEffective = false) :
    phase2Repair c cid = ⟨true, false, [], false, 1, false⟩ := by
  simp [phase2Repair, h1, h2, h3, h4, toggleIf]

theorem processCell_phase2_id_none (chk : Checker) (prev : List String)
    (park fac : String) (c : Cell) (hid : c.id = none) :
    (processCell chk false prev park fac c).clicks = 0 := by
  unfold processCell
  simp [hid, skipRun]

theorem processCell_phase2_split_none (chk : Checker) (prev : List String)
    (park fac : String) (c : Cell) (cid : String) (hid : c.id = some cid)
    (hsp : splitCellId cid = none) :
    (processCell chk false prev park fac c).clicks = 0 := by
  unfold processCell
  simp [hid, hsp, skipRun]

theorem processCell_phase2_clicks (chk : Checker) (prev : List String)
    (park fac : String) (c : Cell) (cid : String) (d : Nat) (ts : String)
    (hid : c.id = some cid) (hsp : splitCellId cid = some (d, ts)) :
    (processCell chk false prev park fac c).clicks
      = (if prev.contains cid && c.outline then (phase2Repair c cid).clicks else 0) := by
  unfold processCell
  simp only [hid]
  simp only [hsp]
  simp only [Bool.not_false, Bool.true_and]
  by_cases hg : (prev.contains cid && c.outline) = true
  · simp only [hg, if_true]
    split
    · rfl
    · split
      · rfl
      · rfl
      · rfl
      · split
        · rfl
        · rfl
  · have hg' : (prev.contains cid && c.outline) = false := by
      cases hx : (prev.contains cid && c.outline) with
      | true => exact absurd hx hg
      | false => rfl
    simp only [hg', Bool.false_eq_true, if_false]
    split
    · rfl
    · split
      · rfl
      · rfl
      · rfl
      · split
        · rfl
        · rfl

theorem processCell_phase2_recorded (chk : Checker) (prev : List String)
    (park fac : String) (c : Cell) (cid : String) (d : Nat) (ts : String)
    (hid : c.id = some cid) (hsp : splitCellId cid = some (d, ts))
    (hg : (prev.contains cid && c.outline) = true) :
    (processCell chk false prev park fac c).recorded
      = (phase2Repair c cid).recorded ++
        (if (phase2Repair c cid).alreadySel && prev.contains cid then [cid] else []) := by
  unfold processCell
  simp only [hid]
  simp only [hsp]
  simp only [Bool.not_false, Bool.true_and, hg, if_true]
  split
  · rfl
  · split
    · rfl
    · rfl
    · rfl
    · split
      · rfl
      · rfl

/-- Claim C3: in the Phase-2 (backward) pass, a cell recorded as clicked
in Phase 1 whose icon check now shows it unselected is re-clicked exactly
once — under normal interaction, i.e. neither the scroll nor the click
raises — and its id appears in the returned clicked list iff the
re-click's verification (icon gone afterwards) succeeds; every other cell
is only re-extracted and receives no click at all. -/
theorem phase2_reclick_once_and_only_repair :
    (∀ (chk : Checker) (prev : List String) (park fac : String) (c : Cell)
        (cid : String) (d : Nat) (ts : String),
      c.id = some cid → splitCellId cid = some (d, ts) →
      prev.contains cid = true → c.outline = true →
      c.scrollRaises = false → c.clickRaises = false →
      (processCell chk false prev park fac c).clicks = 1 ∧
        ((processCell chk false prev park fac c).recorded.contains cid = true
          ↔ c.clickEffective = true)) ∧
    (∀ (chk : Checker) (prev : List String) (park fac : String) (c : Cell),
      (∀ cid, c.id = some cid → prev.contains cid = true →
        splitCellId cid = none ∨ c.outline = false) →
      (processCell chk false prev park fac c).clicks = 0) := by
  constructor
  · intro chk prev park fac c cid d ts hid hsp hprev hout hsc hcr
    have hg : (prev.contains cid && c.outline) = true := by rw [hprev, hout]; rfl
    have hclicks := processCell_phase2_clicks chk prev park fac c cid d ts hid hsp
    have hrec := processCell_phase2_recorded chk prev park fac c cid d ts hid hsp hg
    simp only [hg, if_true] at hclicks
    cases heff : c.clickEffective with
    | true =>
      rw [phase2Repair_eff c cid hout hsc hcr heff] at hclicks hrec
      rw [hprev] at hrec
      refine ⟨hclicks, ?_⟩
      simp only [hrec]
      simp [List.contains_cons]
    | false =>
      rw [phase2Repair_ineff c cid hout hsc hcr heff] at hclicks hrec
      refine ⟨hclicks, ?_⟩
      simp only [hrec]
      simp
  · intro chk prev park fac c h
    cases hid : c.id with
    | none => exact processCell_phase2_id_none chk prev park fac c hid
    | some cid =>
      cases hsp : splitCellId cid with
      | none => exact processCell_phase2_split_none chk prev park fac c cid hid hsp
      | some pr =>
        obtain ⟨d, ts⟩ := pr
        have hclicks := processCell_phase2_clicks chk prev park fac c cid d ts hid hsp
        have hg : (prev.contains cid && c.outline) = false := by
          by_cases hc : prev.contains cid = true
          · rcases h cid hid hc with hnone | hsel
            · rw [hsp] at hnone; exact absurd hnone (by simp)
            · rw [hsel, Bool.and_false]
          · have : prev.contains cid = false := by
              cases hx : prev.contains cid with
              | true => exact absurd hx hc
              | false => rfl
            rw [this, Bool.false_and]
        rw [hg] at hclicks
        simpa using hclicks

/-- Witness for C3 at a concrete previously-clicked, now-unselected cell
whose re-click the site registers: one click, id recorded; and at a
concrete already-selected cell: zero clicks. -/
theorem phase2_reclick_once_and_only_repair_witness :
    ((processCell noChecker false ["20260101_0900"] "P" "F" tstCell).clicks = 1 ∧
      ((processCell noChecker false ["20260101_0900"] "P" "F" tstCell).recorded.contains
          "20260101_0900" = true
        ↔ tstCell.clickEffective = true)) ∧
      (processCell noChecker false ["20260101_0900"] "P" "F"
        { tstCell with outline := false }).clicks = 0 :=
  ⟨phase2_reclick_once_and_only_repair.1 noChecker ["20260101_0900"] "P" "F" tstCell
      "20260101_0900" 20260101 "0900" rfl (by decide) (by decide) rfl rfl rfl,
    phase2_reclick_once_and_only_repair.2 noChecker ["20260101_0900"] "P" "F"
      { tstCell with outline := false }
      (fun cid hcid _ => Or.inr (by simp at hcid; rfl))⟩

/-- Claim C4 (code bug): when the bounded wait for a week's table fails,
`extract_slots_from_current_week` executes `return week_slots,
slot_clicked_flag` (`slot_extractor.py:102`) — a 2-tuple, although the
function is annotated `Tuple[List[Dict], int, List[str]]` and every
caller unpacks three values — so the 3-way unpacking at
`slot_extractor.py:516` raises and the top-level handler at :626 ends the
whole facility traversal.  On `c4Weeks` the traversal aborts at week 2:
week 3's available cell contributes nothing and the backward phase never
runs, instead of "that week yields nothing, continue". -/
theorem week_timeout_aborts_traversal :
    (extract_slots_from_weekly_calendar noChecker c4Weeks).aborted = true ∧
      (extract_slots_from_weekly_calendar noChecker c4Weeks).slots
        = [mkSlot "P" "F" 20260101 "1020" "10200020" 900 1100 "20260101_0900" "0900"] :=
  ⟨by decide, by decide⟩

/-- Counterexample to claim C5 as stated: in the forward (Phase-1) pass
an already-selected cell carrying a perfectly parseable `setReserv`
handler emits NO Slot — the pass skips it at `slot_extractor.py:196`
before the handler is parsed, while the claim demands a Slot for every
such cell "including cells found already selected". -/
theorem phase1_selected_cell_emits_no_slot :
    c5Cell.onclick = some (OnClick.setReserv "d" "1020" "10200020" 10 900 1100 0) ∧
      c5Cell.outline = false ∧
      (processCell noChecker true [] "P" "F" c5Cell).slots = [] :=
  ⟨rfl, rfl, by decide⟩

/-- Claim C5 (amended): a Slot is emitted for a visited available cell
iff the cell has a well-formed id, its click handler carries a parseable
`setReserv` encoding, the optional database checker does not skip it, and
— in the forward (clicking) pass only — the cell is not already selected;
in the backward pass already-selected cells do emit their Slot. -/
theorem slot_emission_charact (chk : Checker) (clickSlots : Bool)
    (prev : List String) (park fac : String) (c : Cell) :
    (processCell chk clickSlots prev park fac c).slots ≠ [] ↔
      ∃ cid d ts a1 bcd icd n3 n4 n5 n6,
        c.id = some cid ∧ splitCellId cid = some (d, ts) ∧
        c.onclick = some (OnClick.setReserv a1 bcd icd n3 n4 n5 n6) ∧
        checkerSkips chk d bcd icd n4 = false ∧
        (clickSlots = true → c.outline = true) := by
  unfold processCell
  cases hid : c.id with
  | none => simp [skipRun, hid]
  | some cid =>
    cases hsp : splitCellId cid with
    | none => simp [skipRun, hid, hsp]
    | some pr =>
      obtain ⟨d, ts⟩ := pr
      simp only [hsp]
      cases hcs : clickSlots with
      | false =>
        simp only [Bool.not_false, Bool.true_and, Bool.and_false, Bool.false_eq_true,
          if_false]
        cases hoc : c.onclick with
        | none => simp [hid, hoc]
        | some oc =>
          cases oc with
          | other => simp [hid, hoc]
          | setReservMalformed => simp [hid, hoc]
          | setReserv a1 bcd icd n3 n4 n5 n6 =>
            by_cases hskip : checkerSkips chk d bcd icd n4 = true
            · simp [hid, hoc, hskip]
              intro x x1 hx p2 p3 p4 p5 p6 h2 h3 h4 h5 h6
              rw [hsp] at hx
              simp at hx
              obtain ⟨rfl, rfl⟩ := hx
              subst h3; subst h4; subst h6
              exact hskip
            · have hskip' : checkerSkips chk d bcd icd n4 = false := by
                cases hx : checkerSkips chk d bcd icd n4 with
                | true => exact absurd hx hskip
                | false => rfl
              simp [hid, hoc, hskip']
              exact ⟨d, ⟨ts, hsp⟩, a1, bcd, icd, n3, n4,
                ⟨rfl, rfl, rfl, rfl, rfl⟩, hskip'⟩
      | true =>
        simp only [Bool.not_true, Bool.false_and, Bool.false_eq_true, if_false]
        cases hsel : c.outline with
        | false =>
          simp [hid, hsel]
        | true =>
          simp only [hsel, Bool.not_true, Bool.false_and, Bool.and_true]
          cases hoc : c.onclick with
          | none => simp [hid, hoc]
          | some oc =>
            cases oc with
            | other => simp [hid, hoc]
            | setReservMalformed => simp [hid, hoc]
            | setReserv a1 bcd icd n3 n4 n5 n6 =>
              by_cases hskip : checkerSkips chk d bcd icd n4 = true
              · simp [hid, hoc, hskip]
                intro x x1 hx p2 p3 p4 p5 p6 h2 h3 h4 h5 h6
                rw [hsp] at hx
                simp at hx
                obtain ⟨rfl, rfl⟩ := hx
                subst h3; subst h4; subst h6
                exact hskip
              · have hskip' : checkerSkips chk d bcd icd n4 = false := by
                  cases hx : checkerSkips chk d bcd icd n4 with
                  | true => exact absurd hx hskip
                  | false => rfl
                simp [hid, hoc, hskip']
                exact ⟨d, ⟨ts, hsp⟩, a1, bcd, icd, n3, n4,
                  ⟨rfl, rfl, rfl, rfl, rfl⟩, hskip'⟩

/-- Witness for C5 (amended): a backward-pass already-selected cell with
a parseable handler emits its Slot. -/
theorem slot_emission_charact_witness :
    (processCell noChecker false [] "P" "F" c5Cell).slots ≠ [] :=
  (slot_emission_charact noChecker false [] "P" "F" c5Cell).mpr
    ⟨"20260101_0900", 20260101, "0900", "d", "1020", "10200020", 10, 900, 1100, 0,
      rfl, by decide, rfl, rfl, fun h => absurd h (by decide)⟩

/-- Counterexample to claim C8 as stated: a cell with no selection marker
of any kind but with the "still available" icon ABSENT — the claim's
check (2), described as the strongest positive signal — is reported NOT
selected by `verify_cell_selection`, while the claimed ordered procedure
reports it selected: the source function never consults the icon. -/
theorem verifier_counterexample :
    verify_cell_selection c8Cell = false ∧ verify_cell_selection_claimed c8Cell = true :=
  ⟨by decide, by decide⟩

/-- Claim C8 (amended): `verify_cell_selection` short-circuits on the
first positive among, in order: the cell's own `data-selected`/class
markers, ancestor markers, the script-held registry and form data, hidden
form fields, and weak in-cell markers — equivalently it returns the
disjunction of those signals when no probe raises, and `false` when one
does; and its answer is independent of both the "still available" icon
and the sibling markers (the sibling probe only logs). -/
theorem verifier_charact (c : VCell) :
    (verify_cell_selection c
      = (!c.raises && (c.dataSelected == some "1" ||
          (strHas (lowerStr c.className) "selected" || strHas (lowerStr c.className) "active") ||
          c.ancestorMarked || c.jsRegistryHit || c.hiddenInputHit || weakMarker c))) ∧
      ∀ b b' : Bool,
        verify_cell_selection { c with outlineIcon := b, siblingMarked := b' }
          = verify_cell_selection c := by
  rcases c with ⟨ds, cn, aria, st, anc, sib, js, hin, icon, rs⟩
  refine ⟨?_, fun b b' => rfl⟩
  cases rs with
  | true => simp [verify_cell_selection]
  | false =>
    cases h1 : (ds == some "1") with
    | true => simp [verify_cell_selection, h1]
    | false =>
      cases h2 : (strHas (lowerStr cn) "selected" || strHas (lowerStr cn) "active") with
      | true => simp [verify_cell_selection, h1, h2]
      | false =>
        cases h3 : anc with
        | true => simp [verify_cell_selection, h1, h2]
        | false =>
          cases h4 : js with
          | true => simp [verify_cell_selection, h1, h2]
          | false =>
            cases h5 : hin with
            | true => simp [verify_cell_selection, h1, h2]
            | false =>
              cases h6 : weakMarker ⟨ds, cn, aria, st, anc, sib, js, hin, icon, false⟩ with
              | true => simp [verify_cell_selection, h1, h2, h6]
              | false => simp [verify_cell_selection, h1, h2, h6]

/-- Witness for C8 (amended) at a concrete cell whose only positive
signal is a hidden-input hit. -/
theorem verifier_charact_witness :
    (verify_cell_selection { c8Cell with hiddenInputHit := true }
      = (!({ c8Cell with hiddenInputHit := true } : VCell).raises &&
          (({ c8Cell with hiddenInputHit := true } : VCell).dataSelected == some "1" ||
          (strHas (lowerStr ({ c8Cell with hiddenInputHit := true } : VCell).className) "selected" ||
            strHas (lowerStr ({ c8Cell with hiddenInputHit := true } : VCell).className) "active") ||
          ({ c8Cell with hiddenInputHit := true } : VCell).ancestorMarked ||
          ({ c8Cell with hiddenInputHit := true } : VCell).jsRegistryHit ||
          ({ c8Cell with hiddenInputHit := true } : VCell).hiddenInputHit ||
          weakMarker { c8Cell with hiddenInputHit := true }))) ∧
      ∀ b b' : Bool,
        verify_cell_selection
            { { c8Cell with hiddenInputHit := true } with outlineIcon := b, siblingMarked := b' }
          = verify_cell_selection { c8Cell with hiddenInputHit := true } :=
  verifier_charact { c8Cell with hiddenInputHit := true }

end BookModel
